import Mathlib

/-!
# Verification of the Track & Click trial engine

A shallow embedding of the trial engine in `src/osu-experiment.jsx`:
the configuration block `TRIAL_CONFIG`, the path calculator
`getPositionOnPath` / `catmullRom`, the scoring functions
`calculateClickPoints` / `calculateTrackingSamplePoints` /
`getTrackingGrade`, the run initializer `initializeTrials`, and the
press-event handler `handlePointerDown` together with the
tracking-completion statistics of `startTrackingAnimation`.

Numbers are modelled as real numbers; JavaScript `Math.round` is
modelled as `jsRound` (round half toward positive infinity) and
`Math.floor` as `Int.floor`.  Out-of-range list indexing (which in
JavaScript yields `undefined` and then NaN arithmetic) is modelled with
`List.getD` and a junk default; no theorem below depends on the value
of that default.
-/

noncomputable section

/-! ## Configuration (`TRIAL_CONFIG`, lines 6-134) -/

/-- `TRIAL_CONFIG.targetRadius` (px): max distance for click points. -/
def targetRadius : ℝ := 40

/-- `TRIAL_CONFIG.trackingMaxDistance` (px): distance at which tracking gives 0 points. -/
def trackingMaxDistance : ℝ := 80

/-- `TRIAL_CONFIG.points.maxClickPoints`. -/
def maxClickPoints : ℝ := 400

/-- `TRIAL_CONFIG.points.maxReactionTime` (ms). -/
def maxReactionTime : ℝ := 1000

/-- `TRIAL_CONFIG.points.maxPointsPerSample`. -/
def maxPointsPerSample : ℝ := 5

/-- `TRIAL_CONFIG.points.clickPerfectDist`. -/
def clickPerfectDist : ℝ := 10

/-- `TRIAL_CONFIG.points.clickGreatDist`. -/
def clickGreatDist : ℝ := 25

/-- `TRIAL_CONFIG.points.clickPerfectTime` (ms). -/
def clickPerfectTime : ℝ := 200

/-- `TRIAL_CONFIG.points.clickGreatTime` (ms). -/
def clickGreatTime : ℝ := 400

/-- `TRIAL_CONFIG.points.trackPerfectPct`. -/
def trackPerfectPct : ℝ := 0.9

/-- `TRIAL_CONFIG.points.trackGreatPct`. -/
def trackGreatPct : ℝ := 0.7

/-- `TRIAL_CONFIG.points.trackOkPct`. -/
def trackOkPct : ℝ := 0.5

/-- `TRIAL_CONFIG.totalTrials`. -/
def totalTrials : ℕ := 20

/-- JavaScript `Math.round`: rounds half toward positive infinity. -/
def jsRound (x : ℝ) : ℤ := ⌊x + 1 / 2⌋

/-! ## Scoring functions (lines 206-256) -/

/-- The record returned by `calculateClickPoints`. -/
structure ClickScore where
  points : ℤ
  grade : String
  accuracyFactor : ℝ
  timeFactor : ℝ

/-- `calculateClickPoints(distance, reactionTime)` (lines 206-233). -/
def calculateClickPoints (distance reactionTime : ℝ) : ClickScore :=
  -- If outside target radius, no points
  if distance > targetRadius then
    { points := 0, grade := "MISS", accuracyFactor := 0, timeFactor := 0 }
  else
    -- Continuous accuracy factor: 1 at center, 0 at edge
    let accuracyFactor := max 0 (1 - distance / targetRadius)
    -- Continuous time factor: 1 at instant, 0 at maxReactionTime
    let timeFactor := max 0 (1 - reactionTime / maxReactionTime)
    -- Combined points (multiplicative)
    let points := jsRound (maxClickPoints * accuracyFactor * timeFactor)
    -- Grade label: default 'OK', tightened by the nested thresholds
    let grade :=
      if distance ≤ clickPerfectDist ∧ reactionTime ≤ clickPerfectTime then "PERFECT"
      else if distance ≤ clickGreatDist ∧ reactionTime ≤ clickGreatTime then "GREAT"
      else "OK"
    { points := points, grade := grade,
      accuracyFactor := accuracyFactor, timeFactor := timeFactor }

/-- `calculateTrackingSamplePoints(distance, isClicking)` (lines 235-248). -/
def calculateTrackingSamplePoints (distance : ℝ) (isClicking : Bool) : ℝ :=
  -- No points if not clicking
  if !isClicking then 0
  else
    -- Continuous distance factor: 1 at center, 0 at maxDistance
    let distanceFactor := max 0 (1 - distance / trackingMaxDistance)
    maxPointsPerSample * distanceFactor

/-- `getTrackingGrade(accuracy)` (lines 250-256). -/
def getTrackingGrade (accuracy : ℝ) : String :=
  if accuracy ≥ trackPerfectPct then "PERFECT"
  else if accuracy ≥ trackGreatPct then "GREAT"
  else if accuracy ≥ trackOkPct then "OK"
  else "POOR"

/-! ## Path calculator (lines 139-201) -/

/-- An `{x, y}` position object. -/
structure Pos where
  x : ℝ
  y : ℝ

/-- The `params` object passed to `getPositionOnPath`.  JavaScript params are
records with only some of these fields present; absent fields default to `0`
(respectively `[]`), and no field is read by the shape branches below unless
the catalog supplies it. -/
structure PathParams where
  startX : ℝ := 0
  startY : ℝ := 0
  endX : ℝ := 0
  endY : ℝ := 0
  amplitude : ℝ := 0
  frequency : ℝ := 0
  centerX : ℝ := 0
  centerY : ℝ := 0
  radius : ℝ := 0
  points : List (ℝ × ℝ) := []
  duration : ℝ := 0

/-- `catmullRom(p0, p1, p2, p3, t)` (lines 192-201). -/
def catmullRom (p0 p1 p2 p3 t : ℝ) : ℝ :=
  let t2 := t * t
  let t3 := t2 * t
  0.5 * ((2 * p1) +
    (-p0 + p2) * t +
    (2 * p0 - 5 * p1 + 4 * p2 - p3) * t2 +
    (-p0 + 3 * p1 - 3 * p2 + p3) * t3)

/-- `getPositionOnPath(shape, params, progress, canvasWidth, canvasHeight)`
(lines 139-190). -/
def getPositionOnPath (shape : String) (params : PathParams) (progress : ℝ)
    (canvasWidth canvasHeight : ℝ) : Pos :=
  let t := min 1 (max 0 progress)
  if shape = "line" then
    let x := params.startX + (params.endX - params.startX) * t
    let y := params.startY + (params.endY - params.startY) * t
    ⟨x * canvasWidth, y * canvasHeight⟩
  else if shape = "wave" then
    let x := params.startX + (params.endX - params.startX) * t
    let baseY := params.startY
    let y := baseY + Real.sin (t * Real.pi * 2 * params.frequency) * params.amplitude
    ⟨x * canvasWidth, y * canvasHeight⟩
  else if shape = "circle" then
    let angle := t * Real.pi * 2 - Real.pi / 2
    let x := params.centerX + Real.cos angle * params.radius
    let y := params.centerY + Real.sin angle * params.radius
    ⟨x * canvasWidth, y * canvasHeight⟩
  else if shape = "blob" ∨ shape = "zigzag" then
    let points := params.points
    let totalSegments : ℤ := (points.length : ℤ) - 1
    let segmentProgress : ℝ := t * (totalSegments : ℝ)
    let segmentIndex : ℤ := min ⌊segmentProgress⌋ (totalSegments - 1)
    let localT : ℝ := segmentProgress - (segmentIndex : ℝ)
    let p1 := points.getD segmentIndex.toNat (0, 0)
    let p2 := points.getD (segmentIndex + 1).toNat (0, 0)
    if shape = "blob" ∧ points.length ≥ 4 then
      let p0 := points.getD (max 0 (segmentIndex - 1)).toNat (0, 0)
      let p3 := points.getD (min ((points.length : ℤ) - 1) (segmentIndex + 2)).toNat (0, 0)
      let x := catmullRom p0.1 p1.1 p2.1 p3.1 localT
      let y := catmullRom p0.2 p1.2 p2.2 p3.2 localT
      ⟨x * canvasWidth, y * canvasHeight⟩
    else
      let x := p1.1 + (p2.1 - p1.1) * localT
      let y := p1.2 + (p2.2 - p1.2) * localT
      ⟨x * canvasWidth, y * canvasHeight⟩
  else
    ⟨canvasWidth / 2, canvasHeight / 2⟩

/-! ## Trial catalog (`TRIAL_CONFIG.clickSequences` / `TRIAL_CONFIG.trackShapes`) -/

/-- A catalog entry or a selected trial (the objects of
`TRIAL_CONFIG.clickSequences`, `TRIAL_CONFIG.trackShapes` and of the
`selected` list of `initializeTrials`). -/
structure Trial where
  id : String
  type : String
  positions : List (ℝ × ℝ) := []
  shape : String := ""
  params : PathParams := {}
  instanceId : ℕ := 0

instance : Inhabited Trial := ⟨{ id := "", type := "" }⟩

/-- `TRIAL_CONFIG.clickSequences` (lines 8-64). -/
def clickSequences : List Trial :=
  [ { id := "seq_1", type := "click_sequence",
      positions := [(0.2, 0.3), (0.4, 0.5), (0.6, 0.3), (0.8, 0.5), (0.5, 0.7)] },
    { id := "seq_2", type := "click_sequence",
      positions := [(0.5, 0.2), (0.3, 0.4), (0.7, 0.4), (0.3, 0.7), (0.7, 0.7)] },
    { id := "seq_3", type := "click_sequence",
      positions := [(0.15, 0.5), (0.35, 0.3), (0.5, 0.6), (0.65, 0.3), (0.85, 0.5)] },
    { id := "seq_4", type := "click_sequence",
      positions := [(0.8, 0.2), (0.6, 0.4), (0.4, 0.2), (0.2, 0.4), (0.5, 0.75)] },
    { id := "seq_5", type := "click_sequence",
      positions := [(0.5, 0.15), (0.25, 0.35), (0.75, 0.35), (0.35, 0.65), (0.65, 0.65)] } ]

/-- A `TRIAL_CONFIG.trackShapes` entry (lines 66-107). -/
structure TrackShapeDef where
  id : String
  shape : String
  startX : ℝ
  startY : ℝ
  params : PathParams

/-- `TRIAL_CONFIG.trackShapes` (lines 66-107). -/
def trackShapes : List TrackShapeDef :=
  [ { id := "track_line", shape := "line", startX := 0.1, startY := 0.5,
      params := { endX := 0.9, endY := 0.5, duration := 3000 } },
    { id := "track_wave", shape := "wave", startX := 0.1, startY := 0.5,
      params := { amplitude := 0.15, frequency := 2, endX := 0.9, duration := 4000 } },
    { id := "track_circle", shape := "circle", startX := 0.5, startY := 0.25,
      params := { centerX := 0.5, centerY := 0.5, radius := 0.25, duration := 4000 } },
    { id := "track_blob", shape := "blob", startX := 0.3, startY := 0.3,
      params := { points := [(0.3, 0.3), (0.7, 0.25), (0.75, 0.7), (0.25, 0.65)],
                  duration := 5000 } },
    { id := "track_zigzag", shape := "zigzag", startX := 0.1, startY := 0.3,
      params := { points := [(0.1, 0.3), (0.3, 0.7), (0.5, 0.3), (0.7, 0.7), (0.9, 0.3)],
                  duration := 4500 } } ]

/-- The map applied to each track shape inside `initializeTrials`
(lines 361-364): `{...s, params: {...s.params, startX: s.startX, startY: s.startY}}`. -/
def trackShapeToTrial (s : TrackShapeDef) : Trial :=
  { id := s.id, type := "track", shape := s.shape,
    params := { s.params with startX := s.startX, startY := s.startY } }

/-- `initializeTrials` (lines 358-378), with the draws of
`Math.floor(Math.random() * allTrialTypes.length)` supplied as the
already-floored index sequence `randomIndex` (in contract,
`randomIndex i < allTrialTypes.length`).  The function performs no
validation of the catalog entries. -/
def initializeTrials (clickSeqs : List Trial) (trackDefs : List TrackShapeDef)
    (numTrials : ℕ) (randomIndex : ℕ → ℕ) : List Trial :=
  let allTrialTypes := clickSeqs ++ trackDefs.map trackShapeToTrial
  (List.range numTrials).map fun i =>
    { allTrialTypes.getD (randomIndex i) default with instanceId := i }

/-! ## Trial runner state machine (lines 322-666) -/

/-- The `clickData` record built by `handlePointerDown` (lines 515-529). -/
structure ClickResult where
  trialId : String
  instanceId : ℕ
  type : String
  clickIndex : ℕ
  reactionTime : ℝ
  distance : ℝ
  points : ℤ
  grade : String
  targetX : ℝ
  targetY : ℝ
  clickX : ℝ
  clickY : ℝ
  timestamp : ℝ

/-- The mutable component state read and written by the press handler:
the `useState`/`useRef` cells of `OsuExperiment`.  `pendingAdvances` counts
the `setTimeout(nextTrial, 100)` calls that are scheduled but have not yet
fired. -/
structure EngineState where
  gameState : String
  trials : List Trial
  currentTrialIndex : ℕ
  trialData : List ClickResult
  totalScore : ℤ
  canvasWidth : ℝ
  canvasHeight : ℝ
  targetPosition : Pos
  clickStartTime : ℝ
  currentClickIndex : ℕ
  isClicking : Bool
  trackingStarted : Bool
  trialStartTime : ℝ
  pendingAdvances : ℕ

/-- `nextTrial` (lines 476-482). -/
def nextTrial (s : EngineState) : EngineState :=
  if (s.currentTrialIndex : ℤ) < (s.trials.length : ℤ) - 1 then
    { s with currentTrialIndex := s.currentTrialIndex + 1 }
  else
    { s with gameState := "results" }

/-- `handlePointerDown` (lines 485-552).  `x`, `y` are the canvas-local press
coordinates, `now` is `performance.now()` and `ts` is `Date.now()`.
A scheduled `setTimeout(nextTrial, 100)` is recorded by incrementing
`pendingAdvances`; the `startTrackingAnimation` call of the track branch
only starts the sampling loop and changes no state of this structure
beyond the flags set here. -/
def handlePointerDown (s : EngineState) (x y now ts : ℝ) : EngineState :=
  if s.gameState ≠ "playing" then s
  else
    match s.trials.get? s.currentTrialIndex with
    | none => s
    | some trial =>
      -- Set clicking state for tracking
      let s1 := { s with isClicking := true }
      if trial.type = "click_sequence" then
        let dist := Real.sqrt ((x - s.targetPosition.x) ^ 2 + (y - s.targetPosition.y) ^ 2)
        let reactionTime := now - s.clickStartTime
        let score := calculateClickPoints dist reactionTime
        let clickData : ClickResult :=
          { trialId := trial.id, instanceId := trial.instanceId, type := "click",
            clickIndex := s.currentClickIndex, reactionTime := reactionTime,
            distance := dist, points := score.points, grade := score.grade,
            targetX := s.targetPosition.x, targetY := s.targetPosition.y,
            clickX := x, clickY := y, timestamp := ts }
        let s2 := { s1 with totalScore := s1.totalScore + score.points,
                            trialData := s1.trialData ++ [clickData] }
        -- Move to next click in sequence or next trial
        if (s.currentClickIndex : ℤ) < (trial.positions.length : ℤ) - 1 then
          let nextIndex := s.currentClickIndex + 1
          let nextPos := trial.positions.getD nextIndex (0, 0)
          { s2 with currentClickIndex := nextIndex,
                    targetPosition := ⟨nextPos.1 * s.canvasWidth, nextPos.2 * s.canvasHeight⟩,
                    clickStartTime := now }
        else
          { s2 with pendingAdvances := s2.pendingAdvances + 1 }
      else
        if trial.type = "track" ∧ ¬s.trackingStarted then
          -- Start tracking on first click (anywhere - more forgiving)
          { s1 with trackingStarted := true, trialStartTime := now }
        else s1

/-- The target position `startTrial` (lines 423-452) computes for a fresh
trial: for a click-sequence trial it reads `trial.positions[0]` and then its
`.x`, which is `none` (a thrown `TypeError` on `undefined`) when the position
list is empty; for any other trial it asks the path calculator for
progress 0. -/
def startTrialTarget (trial : Trial) (canvasWidth canvasHeight : ℝ) : Option Pos :=
  if trial.type = "click_sequence" then
    trial.positions.head?.map fun firstPos =>
      ⟨firstPos.1 * canvasWidth, firstPos.2 * canvasHeight⟩
  else
    some (getPositionOnPath trial.shape trial.params 0 canvasWidth canvasHeight)

/-! ## Tracking sampler statistics (lines 561-666) -/

/-- A sample pushed by the sampling interval (lines 597-607). -/
structure TrackSample where
  time : ℝ
  progress : ℝ
  targetX : ℝ
  targetY : ℝ
  cursorX : ℝ
  cursorY : ℝ
  distance : ℝ
  isClicking : Bool
  samplePoints : ℝ

/-- The `accumulatedPoints` total built up by the sampling interval
(lines 566, 590-591): one `calculateTrackingSamplePoints` contribution per
tick, given each tick's observed `(distance, isClickingRef.current)`. -/
def accumulatedTrackingPoints (ticks : List (ℝ × Bool)) : ℝ :=
  (ticks.map fun p => calculateTrackingSamplePoints p.1 p.2).sum

/-- The `accuracy` statistic at tracking completion (lines 620-621):
`samples.length > 0 ? clickingSamples.length / samples.length : 0`. -/
def trackingAccuracy (samples : List TrackSample) : ℝ :=
  let clickingSamples := samples.filter fun s => s.isClicking
  if samples.length > 0 then (clickingSamples.length : ℝ) / (samples.length : ℝ) else 0

/-- The `totalPoints` awarded at tracking completion (line 626):
`Math.round(accumulatedPoints)`. -/
def trackingTotalPoints (ticks : List (ℝ × Bool)) : ℤ :=
  jsRound (accumulatedTrackingPoints ticks)

/-! ## Specification-side definitions (for refinement comparisons) -/

/-- The points value of a click as the specification words it:
`round(maxClickPoints * max(0, 1 - d/targetRadius) * max(0, 1 - rt/maxReactionTime))`
inside the radius, `0` beyond it. -/
def specClickPointsValue (d rt : ℝ) : ℤ :=
  if d > targetRadius then 0
  else jsRound (maxClickPoints * max 0 (1 - d / targetRadius) * max 0 (1 - rt / maxReactionTime))

/-- The tracking-sample points as the specification words it:
`maxPointsPerSample * max(0, 1 - d/trackingMaxDistance)` when pressed, else 0. -/
def specTrackingSampleValue (d : ℝ) (isPressed : Bool) : ℝ :=
  if isPressed then maxPointsPerSample * max 0 (1 - d / trackingMaxDistance) else 0

/-! ## Concrete states used to settle the claims on small inputs -/

/-- A malformed click-sequence catalog entry: an empty position list. -/
def badSeq : Trial :=
  { id := "seq_bad", type := "click_sequence", positions := [] }

/-- The engine state right after the 5th click of `seq_1` was handled on an
800x600 canvas: the game state is still `"playing"`, the click index rests at
4 (the final target `(0.5, 0.7)`), and one `setTimeout(nextTrial, 100)` is
already scheduled. -/
def lateState : EngineState :=
  { gameState := "playing",
    trials := [{ clickSequences.getD 0 default with instanceId := 0 }],
    currentTrialIndex := 0,
    trialData := [],
    totalScore := 1000,
    canvasWidth := 800,
    canvasHeight := 600,
    targetPosition := ⟨0.5 * 800, 0.7 * 600⟩,
    clickStartTime := 5000,
    currentClickIndex := 4,
    isClicking := true,
    trackingStarted := false,
    trialStartTime := 0,
    pendingAdvances := 1 }

/-! ## Helper lemmas -/

/-- JavaScript rounding is monotone. -/
theorem jsRound_mono {a b : ℝ} (h : a ≤ b) : jsRound a ≤ jsRound b :=
  Int.floor_le_floor (by linarith)

/-- JavaScript rounding of a non-negative number is non-negative. -/
theorem jsRound_nonneg {a : ℝ} (h : 0 ≤ a) : 0 ≤ jsRound a :=
  Int.le_floor.mpr (by push_cast; linarith)

/-- Click points are never negative. -/
theorem calculateClickPoints_nonneg (d rt : ℝ) : 0 ≤ (calculateClickPoints d rt).points := by
  unfold calculateClickPoints
  split
  · exact le_refl 0
  · refine jsRound_nonneg ?_
    have h1 : (0 : ℝ) ≤ max 0 (1 - d / targetRadius) := le_max_left _ _
    have h2 : (0 : ℝ) ≤ max 0 (1 - rt / maxReactionTime) := le_max_left _ _
    have h3 : (0 : ℝ) ≤ maxClickPoints := by norm_num [maxClickPoints]
    exact mul_nonneg (mul_nonneg h3 h1) h2

/-- Tracking-sample points are never negative. -/
theorem calculateTrackingSamplePoints_nonneg (d : ℝ) (b : Bool) :
    0 ≤ calculateTrackingSamplePoints d b := by
  unfold calculateTrackingSamplePoints
  split
  · exact le_refl 0
  · exact mul_nonneg (by norm_num [maxPointsPerSample]) (le_max_left _ _)

/-! ## Claims -/

/-- Claim C2: for every distance `d` and reaction time `rt`,
`calculateClickPoints` returns points 0 and grade "MISS" when `d` strictly
exceeds `targetRadius`, independently of `rt`; otherwise its points equal
`round(maxClickPoints * max(0, 1 - d/targetRadius) * max(0, 1 - rt/maxReactionTime))`
— in total, the points agree with the specification-side `specClickPointsValue`. -/
theorem calculateClickPoints_matches_spec :
    ∀ d rt : ℝ,
      (calculateClickPoints d rt).points = specClickPointsValue d rt ∧
      (d > targetRadius →
        (calculateClickPoints d rt).points = 0 ∧
          (calculateClickPoints d rt).grade = "MISS") ∧
      (¬d > targetRadius →
        (calculateClickPoints d rt).points =
          jsRound (maxClickPoints * max 0 (1 - d / targetRadius) *
            max 0 (1 - rt / maxReactionTime))) := by
  intro d rt
  by_cases h : d > targetRadius <;>
    simp [calculateClickPoints, specClickPointsValue, h]

/-- Claim C10: at distance exactly `targetRadius` the miss branch is not
taken: for every reaction time the points are 0 (the accuracy factor vanishes
at the boundary) and the grade is "OK" (the default-threshold label), not
"MISS". -/
theorem calculateClickPoints_boundary :
    ∀ rt : ℝ,
      (calculateClickPoints targetRadius rt).points = 0 ∧
      (calculateClickPoints targetRadius rt).grade = "OK" := by
  intro rt
  have h : ¬targetRadius > targetRadius := lt_irrefl _
  constructor
  · norm_num [calculateClickPoints, h, jsRound, targetRadius, maxClickPoints]
  · norm_num [calculateClickPoints, h, targetRadius, clickPerfectDist, clickGreatDist]

/-- Claim C6: tracking samples score 0 when the pointer is not pressed; when
pressed the sample scores `maxPointsPerSample * max(0, 1 - d/trackingMaxDistance)`
(the specification-side `specTrackingSampleValue`), which is the full
`maxPointsPerSample` at distance 0 and exactly 0 at or beyond
`trackingMaxDistance`. -/
theorem calculateTrackingSamplePoints_spec :
    (∀ d : ℝ, calculateTrackingSamplePoints d false = 0) ∧
    (∀ d : ℝ, calculateTrackingSamplePoints d true =
        maxPointsPerSample * max 0 (1 - d / trackingMaxDistance)) ∧
    (∀ (d : ℝ) (pressed : Bool),
        calculateTrackingSamplePoints d pressed = specTrackingSampleValue d pressed) ∧
    calculateTrackingSamplePoints 0 true = maxPointsPerSample ∧
    (∀ d : ℝ, trackingMaxDistance ≤ d → calculateTrackingSamplePoints d true = 0) := by
  refine ⟨fun d => by simp [calculateTrackingSamplePoints],
          fun d => by simp [calculateTrackingSamplePoints],
          fun d pressed => by
            cases pressed <;>
              simp [calculateTrackingSamplePoints, specTrackingSampleValue],
          by norm_num [calculateTrackingSamplePoints, maxPointsPerSample, trackingMaxDistance],
          ?_⟩
  intro d hd
  have hpos : (0 : ℝ) < trackingMaxDistance := by norm_num [trackingMaxDistance]
  have h0 : 1 - d / trackingMaxDistance ≤ 0 :=
    sub_nonpos.mpr ((one_le_div hpos).mpr hd)
  simp [calculateTrackingSamplePoints, max_eq_left h0]

/-- Claim C5: click points are monotonically non-increasing in the distance
and in the reaction time, including across the `targetRadius` boundary where
the miss branch returns 0. -/
theorem calculateClickPoints_monotone :
    (∀ d₁ d₂ rt : ℝ, d₁ ≤ d₂ →
        (calculateClickPoints d₂ rt).points ≤ (calculateClickPoints d₁ rt).points) ∧
    (∀ d rt₁ rt₂ : ℝ, rt₁ ≤ rt₂ →
        (calculateClickPoints d rt₂).points ≤ (calculateClickPoints d rt₁).points) := by
  have hM : (0 : ℝ) ≤ maxClickPoints := by norm_num [maxClickPoints]
  have hr : (0 : ℝ) < targetRadius := by norm_num [targetRadius]
  have ht : (0 : ℝ) < maxReactionTime := by norm_num [maxReactionTime]
  have key : ∀ d₁ d₂ rt₁ rt₂ : ℝ, d₁ ≤ d₂ → rt₁ ≤ rt₂ →
      (calculateClickPoints d₂ rt₂).points ≤ (calculateClickPoints d₁ rt₁).points := by
    intro d₁ d₂ rt₁ rt₂ hd hrt
    by_cases h₂ : d₂ > targetRadius
    · have hz : (calculateClickPoints d₂ rt₂).points = 0 := by
        simp [calculateClickPoints, h₂]
      rw [hz]
      exact calculateClickPoints_nonneg _ _
    · have h₁ : ¬d₁ > targetRadius := fun hc => h₂ (hc.trans_le hd)
      simp only [calculateClickPoints, if_neg h₁, if_neg h₂]
      refine jsRound_mono ?_
      have haf : max 0 (1 - d₂ / targetRadius) ≤ max 0 (1 - d₁ / targetRadius) :=
        max_le_max le_rfl (sub_le_sub_left ((div_le_div_iff_of_pos_right hr).mpr hd) 1)
      have htf : max 0 (1 - rt₂ / maxReactionTime) ≤ max 0 (1 - rt₁ / maxReactionTime) :=
        max_le_max le_rfl (sub_le_sub_left ((div_le_div_iff_of_pos_right ht).mpr hrt) 1)
      exact mul_le_mul (mul_le_mul_of_nonneg_left haf hM) htf (le_max_left _ _)
        (mul_nonneg hM (le_max_left _ _))
  exact ⟨fun d₁ d₂ rt hd => key d₁ d₂ rt rt hd le_rfl,
         fun d rt₁ rt₂ hrt => key d d rt₁ rt₂ le_rfl hrt⟩

/-- Claim C7: the running total only grows.  Every click award is
non-negative, every tracking-trial award (the rounded accumulated sample sum)
is non-negative, and a press-event step never decreases `totalScore`. -/
theorem totalScore_monotone :
    (∀ d rt : ℝ, 0 ≤ (calculateClickPoints d rt).points) ∧
    (∀ ticks : List (ℝ × Bool), 0 ≤ trackingTotalPoints ticks) ∧
    (∀ (s : EngineState) (x y now ts : ℝ),
        s.totalScore ≤ (handlePointerDown s x y now ts).totalScore) := by
  refine ⟨calculateClickPoints_nonneg, ?_, ?_⟩
  · intro ticks
    refine jsRound_nonneg ?_
    unfold accumulatedTrackingPoints
    refine List.sum_nonneg ?_
    intro v hv
    simp only [List.mem_map] at hv
    obtain ⟨p, -, rfl⟩ := hv
    exact calculateTrackingSamplePoints_nonneg p.1 p.2
  · intro s x y now ts
    unfold handlePointerDown
    by_cases hgs : s.gameState ≠ "playing"
    · rw [if_pos hgs]
    · rw [if_neg hgs]
      cases hget : s.trials.get? s.currentTrialIndex with
      | none => exact le_rfl
      | some trial =>
        by_cases hclick : trial.type = "click_sequence"
        · simp only [if_pos hclick]
          by_cases hlt : (s.currentClickIndex : ℤ) < (trial.positions.length : ℤ) - 1
          · simp only [if_pos hlt]
            exact le_add_of_nonneg_right (calculateClickPoints_nonneg _ _)
          · simp only [if_neg hlt]
            exact le_add_of_nonneg_right (calculateClickPoints_nonneg _ _)
        · simp only [if_neg hclick]
          by_cases htr : trial.type = "track" ∧ ¬s.trackingStarted
          · simp only [if_pos htr]
            exact le_rfl
          · simp only [if_neg htr]
            exact le_rfl

/-- Claim C8: at tracking completion the reported accuracy is the number of
pressed samples over the total number of samples when at least one sample was
collected, and is defined as 0 when none were, so no division by zero takes
place. -/
theorem trackingAccuracy_spec :
    ∀ samples : List TrackSample,
      (0 < samples.length →
        trackingAccuracy samples =
          ((samples.countP fun s => s.isClicking : ℕ) : ℝ) / (samples.length : ℝ)) ∧
      (samples.length = 0 → trackingAccuracy samples = 0) := by
  intro samples
  constructor
  · intro h
    unfold trackingAccuracy
    rw [if_pos h]
    congr 2
    exact (List.countP_eq_length_filter _ _).symm
  · intro h
    unfold trackingAccuracy
    rw [if_neg (by omega)]

/-- Claim C9: for every shape name other than line, wave, circle, blob and
zigzag, `getPositionOnPath` is total and returns the canvas center instead of
failing. -/
theorem getPositionOnPath_default :
    ∀ (shape : String) (params : PathParams) (progress w h : ℝ),
      shape ∉ (["line", "wave", "circle", "blob", "zigzag"] : List String) →
      getPositionOnPath shape params progress w h = ⟨w / 2, h / 2⟩ := by
  intro shape params progress w h hshape
  simp only [List.mem_cons, List.not_mem_nil, or_false, not_or] at hshape
  obtain ⟨h1, h2, h3, h4, h5⟩ := hshape
  simp [getPositionOnPath, h1, h2, h3, h4, h5]

/-- Witness for claim C9 at the concrete unknown shape name "square". -/
theorem getPositionOnPath_default_witness :
    getPositionOnPath "square" {} 0.5 640 480 = ⟨640 / 2, 480 / 2⟩ :=
  getPositionOnPath_default "square" {} 0.5 640 480 (by decide)

/-- Claim C4: for every catalog track shape, the path position at progress 0
(with the params as `initializeTrials` passes them, i.e. with `startX`/`startY`
injected) is exactly the declared start position scaled to the canvas: the
wave's sine term vanishes at 0, the circle's -90 degree phase puts progress 0
at the top of the circle, and the blob's Catmull-Rom segment at local
parameter 0 yields its first control point. -/
theorem getPositionOnPath_zero_start :
    ∀ sdef ∈ trackShapes, ∀ w h : ℝ, 0 < w → 0 < h →
      getPositionOnPath sdef.shape (trackShapeToTrial sdef).params 0 w h =
        ⟨sdef.startX * w, sdef.startY * h⟩ := by
  intro sdef hmem w h hw hh
  simp only [trackShapes, List.mem_cons, List.not_mem_nil, or_false] at hmem
  rcases hmem with rfl | rfl | rfl | rfl | rfl <;>
    simp [trackShapeToTrial, getPositionOnPath, catmullRom] <;> norm_num

/-- Witness for claim C4 at the catalog's line shape on an 800x600 canvas. -/
theorem getPositionOnPath_zero_start_witness :
    getPositionOnPath "line"
        (trackShapeToTrial
          { id := "track_line", shape := "line", startX := 0.1, startY := 0.5,
            params := { endX := 0.9, endY := 0.5, duration := 3000 } }).params
        0 800 600 =
      ⟨0.1 * 800, 0.5 * 600⟩ :=
  getPositionOnPath_zero_start
    { id := "track_line", shape := "line", startX := 0.1, startY := 0.5,
      params := { endX := 0.9, endY := 0.5, duration := 3000 } }
    (by simp [trackShapes]) 800 600 (by norm_num) (by norm_num)

/-- Counterexample for claim C1: in the state reached right after the 5th
click of `seq_1` (game state still `"playing"`, one advance already
scheduled), a second press on the final target at reaction time 0 is NOT
ignored: it appends a new ClickResult, raises the total score by 400 and
schedules a second trial-advance. -/
theorem latePress_not_ignored :
    (handlePointerDown lateState (0.5 * 800) (0.7 * 600) 5000 0).trialData.length
        = lateState.trialData.length + 1 ∧
    (handlePointerDown lateState (0.5 * 800) (0.7 * 600) 5000 0).totalScore
        = lateState.totalScore + 400 ∧
    (handlePointerDown lateState (0.5 * 800) (0.7 * 600) 5000 0).pendingAdvances
        = lateState.pendingAdvances + 1 := by
  norm_num [lateState, handlePointerDown, clickSequences, calculateClickPoints, jsRound,
    targetRadius, maxClickPoints, maxReactionTime, List.get?]

/-- Claim C1 as amended: the handler ignores a press only when the game state
is not `"playing"` or no trial exists at the current index.  A press arriving
after a click-sequence trial has already scheduled its advance (the click
index rests at the final position and the state is still `"playing"`) is
instead processed as a further click on the final target: a new ClickResult
is recorded, its points are added to the total, and an additional
trial-advance is scheduled. -/
theorem handlePointerDown_press_guards :
    (∀ (s : EngineState) (x y now ts : ℝ),
        s.gameState ≠ "playing" → handlePointerDown s x y now ts = s) ∧
    (∀ (s : EngineState) (x y now ts : ℝ),
        s.trials.get? s.currentTrialIndex = none → handlePointerDown s x y now ts = s) ∧
    (∀ (s : EngineState) (x y now ts : ℝ) (trial : Trial),
        s.gameState = "playing" →
        s.trials.get? s.currentTrialIndex = some trial →
        trial.type = "click_sequence" →
        ¬((s.currentClickIndex : ℤ) < (trial.positions.length : ℤ) - 1) →
        (handlePointerDown s x y now ts).trialData.length = s.trialData.length + 1 ∧
        (handlePointerDown s x y now ts).pendingAdvances = s.pendingAdvances + 1 ∧
        (handlePointerDown s x y now ts).totalScore =
          s.totalScore + (calculateClickPoints
            (Real.sqrt ((x - s.targetPosition.x) ^ 2 + (y - s.targetPosition.y) ^ 2))
            (now - s.clickStartTime)).points) := by
  refine ⟨?_, ?_, ?_⟩
  · intro s x y now ts h
    unfold handlePointerDown
    rw [if_pos h]
  · intro s x y now ts h
    unfold handlePointerDown
    by_cases hg : s.gameState ≠ "playing"
    · rw [if_pos hg]
    · rw [if_neg hg]
      simp only [h]
  · intro s x y now ts trial hgs hget htype hidx
    unfold handlePointerDown
    rw [if_neg (by simp [hgs])]
    simp only [hget, if_pos htype, if_neg hidx]
    simp [List.length_append]

/-- Counterexample for claim C3: a catalog whose only entry is a
click-sequence with an empty position list passes run initialization intact —
`initializeTrials` returns a normal one-trial run containing the malformed
definition instead of rejecting it — and the failure only surfaces when that
trial starts, where no first target position exists. -/
theorem initializeTrials_accepts_malformed :
    initializeTrials [badSeq] [] 1 (fun _ => 0) = [{ badSeq with instanceId := 0 }] ∧
    startTrialTarget { badSeq with instanceId := 0 } 800 600 = none := by
  constructor
  · simp [initializeTrials, badSeq, List.range_succ]
  · simp [startTrialTarget, badSeq]

/-- Claim C3 as amended: run initialization performs no validation at all.
For every catalog (well-formed or not) it returns exactly `numTrials`
selected entries, each a verbatim copy of the drawn catalog entry with only
`instanceId` set; a click-sequence trial with an empty position list is
therefore selected unchanged, and the failure occurs later, at trial start,
where `startTrial` finds no first position. -/
theorem initializeTrials_no_validation :
    (∀ (cs : List Trial) (tds : List TrackShapeDef) (n : ℕ) (ri : ℕ → ℕ),
        (initializeTrials cs tds n ri).length = n) ∧
    (∀ (cs : List Trial) (tds : List TrackShapeDef) (n : ℕ) (ri : ℕ → ℕ) (i : ℕ), i < n →
        (initializeTrials cs tds n ri).get? i =
          some { (cs ++ tds.map trackShapeToTrial).getD (ri i) default with
                   instanceId := i }) ∧
    (∀ trial : Trial, trial.type = "click_sequence" → trial.positions = [] →
        ∀ w h : ℝ, startTrialTarget trial w h = none) := by
  refine ⟨?_, ?_, ?_⟩
  · intro cs tds n ri
    simp [initializeTrials]
  · intro cs tds n ri i hi
    simp [initializeTrials, List.getElem?_map, List.getElem?_range hi]
  · intro trial ht hp w h
    simp [startTrialTarget, ht, hp]

end








